import Mathlib

/-
Verification of the WebXR session controller of webgl-operate
(src/source/xrcontroller.ts), a shallow embedding in Lean 4.

Modelling conventions:
- Matrices (Float32Array values) are never inspected by the controller, only
  passed through; they are modelled as opaque tokens (Mat := Nat).
- Host objects reachable through the WebXR API (device, session, frame, pose,
  layer) are modelled as structures whose method members are Lean functions.
- The nullable TypeScript fields (session, gl, frameOfRef, canvas, device) are
  Option-valued; the TypeScript non-null assertion x! is erased at runtime, so
  applying a method to an undefined receiver is modelled as a thrown TypeError
  (an Except.error result).
- Observable external effects of a frame callback (requestAnimationFrame,
  bindFramebuffer, renderer.frame, console.warn) are recorded in an event
  trace, in program order.
-/

/-- Opaque token standing for a Float32Array matrix value; the controller never
inspects matrix contents. -/
abbrev Mat := Nat

/-- XRViewport from webxr.ts: x, y, width, height of a viewport rectangle. -/
structure XRViewport where
  x : Int
  y : Int
  width : Int
  height : Int
  deriving DecidableEq

/-- XRView from webxr.ts: an eye tag and a device-supplied projection matrix. -/
structure XRView where
  eye : String
  projectionMatrix : Mat
  deriving DecidableEq

/-- XRDevicePose from webxr.ts: pose model matrix plus the per-view view-matrix
query getViewMatrix. -/
structure XRDevicePose where
  poseModelMatrix : Mat
  getViewMatrix : XRView → Mat

/-- XRWebGLLayer from webxr.ts: the target framebuffer (opaque handle) and the
per-view viewport query. The source applies a non-null assertion to
getViewport, so it is modelled as total. -/
structure XRWebGLLayer where
  framebuffer : Nat
  getViewport : XRView → XRViewport

/-- XRSession as used by the controller: it carries the baseLayer assigned in
requestSession. The per-frame callback registration made through
session.requestAnimationFrame lives in this platform object, not in a
controller field; dropping the session drops the registration reference. -/
structure XRSession where
  baseLayer : XRWebGLLayer

/-- XRFrameOfReference handle (opaque). -/
abbrev XRFrameOfReference := Nat

/-- XRFrame from webxr.ts: the per-frame view list and the pose query
getDevicePose, which takes the frame-of-reference argument (possibly undefined,
since this.frameOfRef! is erased at runtime) and may return null. -/
structure XRFrame where
  views : List XRView
  getDevicePose : Option XRFrameOfReference → Option XRDevicePose

/-- XRSessionCreationOptions from webxr.ts: immersive flag and an output
context reference (opaque handle). -/
structure XRSessionCreationOptions where
  immersive : Bool := false
  outputContext : Option Nat := none
  deriving DecidableEq

/-- XRDevice from webxr.ts: supportsSession resolves (ok) when the options are
supported and rejects (error) otherwise; requestSession is not needed by the
properties below. -/
structure XRDevice where
  supportsSession : XRSessionCreationOptions → Except String Unit

/-- Modelled from the spec: the RenderView class (renderview.ts is not under
src/; only its pooled use in xrcontroller.ts is). Per the spec it is a per-eye
record of projection matrix, view matrix and viewport, pooled and overwritten
in place through a set operation. The id field is a meta-level allocation tag:
it is assigned once when the object is constructed and never changed by set,
so it states the overwritten-in-place-rather-than-reallocated property. -/
structure RenderView where
  id : Nat
  projectionMatrix : Mat
  viewMatrix : Mat
  viewport : XRViewport
  deriving DecidableEq

/-- Modelled from the spec: RenderView.set writes the three per-frame values
into an existing pooled slot, leaving its allocation identity unchanged. -/
def RenderView.set (rv : RenderView) (p vm : Mat) (vp : XRViewport) : RenderView :=
  { rv with projectionMatrix := p, viewMatrix := vm, viewport := vp }

/-- Modelled from the spec: new RenderView() constructs a fresh pooled slot
(with a fresh allocation tag) whose contents are immediately overwritten. -/
def RenderView.mk0 (id : Nat) : RenderView :=
  { id := id, projectionMatrix := 0, viewMatrix := 0, viewport := ⟨0, 0, 0, 0⟩ }

/-- Observable external effects of one onXRFrame invocation, in program
order. -/
inductive FrameEvent where
  | requestAnimationFrame
  | bindFramebuffer (framebuffer : Nat)
  | rendererFrame (elapsed : Int) (renderViews : List RenderView)
  | warn (msg : String)
  deriving DecidableEq

/-- State of an XRController object (the fields of the class in
xrcontroller.ts). The renderer sink is an external collaborator; its
invocation is recorded in the event trace. freshCounter is the meta-level
supply of RenderView allocation tags. -/
structure XRController where
  renderViews : List RenderView
  sessionCreationOptions : XRSessionCreationOptions
  contextAttributes : Nat
  webGLLayerInit : Option Nat
  frameOfRefType : String
  frameOfRefOptions : Option Nat
  device : Option XRDevice
  session : Option XRSession
  canvas : Option Nat
  gl : Option Nat
  frameOfRef : Option XRFrameOfReference
  _block : Bool
  freshCounter : Nat

/-- Constructor of XRController: renderViews starts as [new RenderView()],
sessionCreationOptions as the argument or the empty record, every nullable
field as undefined, and the block flag as false. -/
def XRController.init (sessionOpts : Option XRSessionCreationOptions) : XRController :=
  { renderViews := [RenderView.mk0 0]
    sessionCreationOptions := sessionOpts.getD {}
    contextAttributes := 0
    webGLLayerInit := none
    frameOfRefType := "eye-level"
    frameOfRefOptions := none
    device := none
    session := none
    canvas := none
    gl := none
    frameOfRef := none
    _block := false
    freshCounter := 1 }

/-- XRController.supportsSession: asserts the device is initialized, then
queries the device; a resolved query yields true and a rejected one is caught
and yields false. The assert failure on an uninitialized device is an
error. -/
def XRController.supportsSession (s : XRController) : Except String Bool :=
  match s.device with
  | none => Except.error "AssertionError: this.device not initialized"
  | some d =>
    match d.supportsSession s.sessionCreationOptions with
    | Except.ok _ => Except.ok true
    | Except.error _ => Except.ok false

/-- XRController.onEndSession: the end handler registered in requestSession;
it clears the session-scoped fields (session, canvas, gl, frameOfRef) to
undefined. The controller stores no callback handle of its own: clearing
session drops the per-frame registration reference held by the platform
session object. All other fields, in particular device, are untouched. -/
def XRController.onEndSession (s : XRController) : XRController :=
  { s with session := none, canvas := none, gl := none, frameOfRef := none }

/-- XRController.endSession: awaits this.session!.end(). When the session
field is already cleared the non-null assertion is erased at runtime and the
call throws a TypeError. When a session is active the platform ends it and
fires the end event, whose listener (registered in requestSession) runs
onEndSession. -/
def XRController.endSession (s : XRController) : Except String XRController :=
  match s.session with
  | none => Except.error "TypeError: this.session is undefined"
  | some _ => Except.ok (XRController.onEndSession s)

/-- The for-loop of onXRFrame over frame.views (index i starting at 0): when
slot i of the pool exists it is overwritten in place via set; when it does not
(i equals the pool length, since i never skips an index) the JavaScript index
assignment appends a freshly constructed RenderView, written through set with
the same three values. Returns the updated pool and allocation counter. -/
def XRController.poolLoop (pose : XRDevicePose) (layer : XRWebGLLayer) :
    List XRView → Nat → List RenderView → Nat → List RenderView × Nat
  | [], _, pool, fresh => (pool, fresh)
  | view :: rest, i, pool, fresh =>
    match pool[i]? with
    | some rv =>
      XRController.poolLoop pose layer rest (i + 1)
        (pool.set i (rv.set view.projectionMatrix (pose.getViewMatrix view)
          (layer.getViewport view))) fresh
    | none =>
      XRController.poolLoop pose layer rest (i + 1)
        (pool ++ [(RenderView.mk0 fresh).set view.projectionMatrix
          (pose.getViewMatrix view) (layer.getViewport view)]) (fresh + 1)

/-- XRController.onXRFrame: first re-registers the callback through
this.session!.requestAnimationFrame (a TypeError when the session is cleared),
then queries the device pose against this.frameOfRef!. With a pose it binds
the session framebuffer, runs the pool loop over the reported views, and hands
the whole pooled collection to renderer.frame with elapsed time 0; without a
pose it only warns. Returns the event trace together with the resulting state
(or the thrown error). -/
def XRController.onXRFrame (time : Int) (frame : XRFrame) (s : XRController) :
    List FrameEvent × Except String XRController :=
  match s.session with
  | none => ([], Except.error "TypeError: this.session is undefined")
  | some sess =>
    match frame.getDevicePose s.frameOfRef with
    | some pose =>
      match s.gl with
      | none =>
        ([FrameEvent.requestAnimationFrame], Except.error "TypeError: gl is undefined")
      | some _ =>
        ([FrameEvent.requestAnimationFrame,
          FrameEvent.bindFramebuffer sess.baseLayer.framebuffer,
          FrameEvent.rendererFrame 0
            (XRController.poolLoop pose sess.baseLayer frame.views 0
              s.renderViews s.freshCounter).1],
         Except.ok { s with
           renderViews := (XRController.poolLoop pose sess.baseLayer frame.views 0
             s.renderViews s.freshCounter).1,
           freshCounter := (XRController.poolLoop pose sess.baseLayer frame.views 0
             s.renderViews s.freshCounter).2 })
    | none =>
      ([FrameEvent.requestAnimationFrame,
        FrameEvent.warn "no pose - this is not handled yet."],
       Except.ok s)

/-- XRController.block sets the _block flag. -/
def XRController.block (s : XRController) : XRController :=
  { s with _block := true }

/-- XRController.unblock clears the _block flag. -/
def XRController.unblock (s : XRController) : XRController :=
  { s with _block := false }

/-- XRController.blocked getter returns the _block flag. -/
def XRController.blocked (s : XRController) : Bool :=
  s._block

/-- XRController.update is a placeholder and does nothing. -/
def XRController.update (force : Bool) (s : XRController) : XRController :=
  s

/-
Concrete host objects and controller states used by witnesses and
counterexamples. The pose-derived view matrix and the viewport are arbitrary
concrete values; the controller passes them through unchanged.
-/

/-- Example viewport returned by the example layer for every view. -/
def exViewport : XRViewport := ⟨0, 0, 100, 100⟩

/-- Example base layer: framebuffer handle 7, constant viewport. -/
def exLayer : XRWebGLLayer := ⟨7, fun _ => exViewport⟩

/-- Example active session carrying the example layer. -/
def exSession : XRSession := ⟨exLayer⟩

/-- Example pose: getViewMatrix derives a matrix token from the view. -/
def exPose : XRDevicePose := ⟨11, fun v => v.projectionMatrix + 100⟩

/-- Example frame reporting two views, pose resolving. -/
def exFrame2 : XRFrame := ⟨[⟨"left", 1⟩, ⟨"right", 2⟩], fun _ => some exPose⟩

/-- Example frame reporting one view, pose resolving. -/
def exFrame1 : XRFrame := ⟨[⟨"left", 1⟩], fun _ => some exPose⟩

/-- Example frame reporting two views, pose resolution failing. -/
def exFrameNoPose2 : XRFrame := ⟨[⟨"left", 1⟩, ⟨"right", 2⟩], fun _ => none⟩

/-- Controller in an active session right after initialization and session
request: pool of length one as built by the constructor. -/
def exActive1 : XRController :=
  { XRController.init none with
      session := some exSession, canvas := some 5, gl := some 3, frameOfRef := some 0 }

/-- Controller in an active session whose pool has grown to length two (as
after a two-view frame). -/
def exActive2 : XRController :=
  { exActive1 with renderViews := [RenderView.mk0 0, RenderView.mk0 1], freshCounter := 2 }

/-- Example device that rejects every session configuration. -/
def exRejectDevice : XRDevice := ⟨fun _ => Except.error "NotSupportedError"⟩

/-- Initialized controller holding the rejecting device and an immersive
configuration. -/
def exInitCtrl : XRController :=
  { XRController.init (some { immersive := true }) with device := some exRejectDevice }

/-
Helper lemmas about the pool loop.
-/

/-- Length of the pool after the loop: starting at index i with i within the
pool, the loop leaves the length at the maximum of the old length and the
index reached past the last processed view. -/
theorem poolLoop_length (pose : XRDevicePose) (layer : XRWebGLLayer) :
    ∀ (vs : List XRView) (i : Nat) (pool : List RenderView) (fresh : Nat),
      i ≤ pool.length →
      ((XRController.poolLoop pose layer vs i pool fresh).1).length
        = max pool.length (i + vs.length) := by
  intro vs
  induction vs with
  | nil =>
    intro i pool fresh hi
    simp only [XRController.poolLoop, List.length_nil]
    omega
  | cons v rest ih =>
    intro i pool fresh hi
    rcases hp : pool[i]? with _ | rv
    · have hle : pool.length ≤ i := List.getElem?_eq_none_iff.mp hp
      simp only [XRController.poolLoop, hp]
      rw [ih (i + 1) _ (fresh + 1) (by simp; omega)]
      simp only [List.length_append, List.length_cons, List.length_nil]
      omega
    · have hlt : i < pool.length := by
        rcases List.getElem?_eq_some_iff.mp hp with ⟨h, _⟩
        exact h
      simp only [XRController.poolLoop, hp]
      rw [ih (i + 1) _ fresh (by simp [List.length_set]; omega)]
      simp only [List.length_set, List.length_cons]
      omega

/-- The pool never shrinks across the loop. -/
theorem poolLoop_length_ge (pose : XRDevicePose) (layer : XRWebGLLayer) :
    ∀ (vs : List XRView) (i : Nat) (pool : List RenderView) (fresh : Nat),
      pool.length ≤ ((XRController.poolLoop pose layer vs i pool fresh).1).length := by
  intro vs
  induction vs with
  | nil =>
    intro i pool fresh
    simp [XRController.poolLoop]
  | cons v rest ih =>
    intro i pool fresh
    rcases hp : pool[i]? with _ | rv
    · simp only [XRController.poolLoop, hp]
      have := ih (i + 1)
        (pool ++ [(RenderView.mk0 fresh).set v.projectionMatrix
          (pose.getViewMatrix v) (layer.getViewport v)]) (fresh + 1)
      simp only [List.length_append, List.length_cons, List.length_nil] at this
      omega
    · simp only [XRController.poolLoop, hp]
      have := ih (i + 1)
        (pool.set i (rv.set v.projectionMatrix
          (pose.getViewMatrix v) (layer.getViewport v))) fresh
      simpa [List.length_set] using this

/-- Slots that existed before the loop keep their allocation identity: the
loop overwrites them in place through set and never replaces them by a fresh
allocation. -/
theorem poolLoop_id_preserved (pose : XRDevicePose) (layer : XRWebGLLayer) :
    ∀ (vs : List XRView) (i : Nat) (pool : List RenderView) (fresh : Nat) (j : Nat),
      j < pool.length →
      ((((XRController.poolLoop pose layer vs i pool fresh).1)[j]?).map RenderView.id)
        = ((pool[j]?).map RenderView.id) := by
  intro vs
  induction vs with
  | nil =>
    intro i pool fresh j hj
    simp [XRController.poolLoop]
  | cons v rest ih =>
    intro i pool fresh j hj
    rcases hp : pool[i]? with _ | rv
    · simp only [XRController.poolLoop, hp]
      rw [ih (i + 1) _ (fresh + 1) j (by simp; omega)]
      rw [List.getElem?_append_left hj]
    · have hlt : i < pool.length := by
        rcases List.getElem?_eq_some_iff.mp hp with ⟨h, _⟩
        exact h
      simp only [XRController.poolLoop, hp]
      rw [ih (i + 1) _ fresh j (by simp [List.length_set]; omega)]
      by_cases hij : i = j
      · subst hij
        rw [List.getElem?_set_self hlt, hp]
        simp [RenderView.set]
      · rw [List.getElem?_set_ne hij]

/-
Claim theorems.
-/

/-- C1 counterexample: with a pool that has grown to two slots (after a
two-view frame) and a current frame reporting a single view, the posed
invocation hands the renderer a collection of length 2, not the slice [0, 1):
the stale trailing slot (the untouched RenderView.mk0 1) is part of the
submitted collection, so the submission is not the slice [0, N). -/
theorem C1_slice_submission_cex :
    (XRController.onXRFrame 0 exFrame1 exActive2).1 =
      [FrameEvent.requestAnimationFrame, FrameEvent.bindFramebuffer 7,
       FrameEvent.rendererFrame 0
         [⟨0, 1, 101, ⟨0, 0, 100, 100⟩⟩, RenderView.mk0 1]]
    ∧ exFrame1.views.length = 1
    ∧ [(⟨0, 1, 101, ⟨0, 0, 100, 100⟩⟩ : RenderView), RenderView.mk0 1]
        ≠ [(⟨0, 1, 101, ⟨0, 0, 100, 100⟩⟩ : RenderView), RenderView.mk0 1].take
            exFrame1.views.length :=
  ⟨by decide, rfl, by decide⟩

/-- C1 (amended): for every per-frame invocation in which the pose resolves
and the device reports N views, the controller submits the ENTIRE pooled
Render View collection (of length max(previous pool length, N)) to the
Renderer Sink; the slice [0, N) is freshly written, but stale trailing slots
at indices ≥ N are included in the submitted collection whenever the pool is
longer than N. -/
theorem C1_submits_entire_pool (time : Int) (frame : XRFrame) (s : XRController)
    (sess : XRSession) (pose : XRDevicePose) (g : Nat)
    (hs : s.session = some sess) (hgl : s.gl = some g)
    (hp : frame.getDevicePose s.frameOfRef = some pose) :
    XRController.onXRFrame time frame s =
      ([FrameEvent.requestAnimationFrame,
        FrameEvent.bindFramebuffer sess.baseLayer.framebuffer,
        FrameEvent.rendererFrame 0
          (XRController.poolLoop pose sess.baseLayer frame.views 0
            s.renderViews s.freshCounter).1],
       Except.ok { s with
         renderViews := (XRController.poolLoop pose sess.baseLayer frame.views 0
           s.renderViews s.freshCounter).1,
         freshCounter := (XRController.poolLoop pose sess.baseLayer frame.views 0
           s.renderViews s.freshCounter).2 })
    ∧ ((XRController.poolLoop pose sess.baseLayer frame.views 0
          s.renderViews s.freshCounter).1).length
        = max s.renderViews.length frame.views.length := by
  constructor
  · simp only [XRController.onXRFrame, hs, hgl, hp]
  · have h := poolLoop_length pose sess.baseLayer frame.views 0 s.renderViews
      s.freshCounter (Nat.zero_le _)
    simpa using h

/-- C1 witness: a concrete posed two-view frame on a fresh one-slot pool; the
whole grown pool (both freshly written slots) is submitted with elapsed 0. -/
theorem C1_submits_entire_pool_witness :
    XRController.onXRFrame 12345 exFrame2 exActive1 =
      ([FrameEvent.requestAnimationFrame, FrameEvent.bindFramebuffer 7,
        FrameEvent.rendererFrame 0
          [⟨0, 1, 101, ⟨0, 0, 100, 100⟩⟩, ⟨1, 2, 102, ⟨0, 0, 100, 100⟩⟩]],
       Except.ok { exActive1 with
         renderViews := [⟨0, 1, 101, ⟨0, 0, 100, 100⟩⟩, ⟨1, 2, 102, ⟨0, 0, 100, 100⟩⟩],
         freshCounter := 2 }) := by
  have h := (C1_submits_entire_pool 12345 exFrame2 exActive1 exSession exPose 3
    rfl rfl rfl).1
  exact h

/-- C2 counterexample: on a controller whose session has already ended (the
session field is cleared), calling endSession hits the erased non-null
assertion and throws a TypeError; it is not an error-free no-op. -/
theorem C2_end_after_end_throws_cex :
    (XRController.onEndSession exActive1).session = none
    ∧ XRController.endSession (XRController.onEndSession exActive1)
        = Except.error "TypeError: this.session is undefined" :=
  ⟨rfl, rfl⟩

/-- C2 (amended): endSession on an already-ended controller throws a
TypeError rather than being a no-op; endSession on an active session reaches
the cleared state, and the device-driven end path (onEndSession) never fails
outward and is idempotent: running it again produces no error and no state
change. -/
theorem C2_teardown_amended (s : XRController) :
    (s.session = none →
      XRController.endSession s = Except.error "TypeError: this.session is undefined")
    ∧ (∀ sess, s.session = some sess →
        XRController.endSession s = Except.ok (XRController.onEndSession s))
    ∧ XRController.onEndSession (XRController.onEndSession s)
        = XRController.onEndSession s := by
  refine ⟨fun h => ?_, fun sess h => ?_, rfl⟩
  · simp only [XRController.endSession, h]
  · simp only [XRController.endSession, h]

/-- C2 witness: on the concrete active controller, endSession succeeds and
reaches the cleared state produced by onEndSession. -/
theorem C2_teardown_amended_witness :
    XRController.endSession exActive1 = Except.ok (XRController.onEndSession exActive1) :=
  (C2_teardown_amended exActive1).2.1 exSession rfl

/-- C3: teardown via onEndSession (run both by the device-driven end event and
by a successful endSession) clears every session-scoped field — presentation
target (canvas), graphics handle (gl), frame of reference, and the session
object itself, which is what holds the per-frame callback registration — while
the device handle, the pooled render views and the stored configuration are
left unchanged, so a new session can be requested. -/
theorem C3_teardown_clears_session_state (s : XRController) :
    (XRController.onEndSession s).session = none
    ∧ (XRController.onEndSession s).canvas = none
    ∧ (XRController.onEndSession s).gl = none
    ∧ (XRController.onEndSession s).frameOfRef = none
    ∧ (XRController.onEndSession s).device = s.device
    ∧ (XRController.onEndSession s).renderViews = s.renderViews
    ∧ (XRController.onEndSession s).sessionCreationOptions = s.sessionCreationOptions
    ∧ (∀ sess, s.session = some sess →
        XRController.endSession s = Except.ok (XRController.onEndSession s)) := by
  refine ⟨rfl, rfl, rfl, rfl, rfl, rfl, rfl, fun sess h => ?_⟩
  simp only [XRController.endSession, h]

/-- C3 witness: on the concrete active controller with a grown pool, the
explicit endSession path reaches exactly the state cleared by onEndSession,
and the device handle survives teardown. -/
theorem C3_teardown_clears_session_state_witness :
    XRController.endSession exActive2 = Except.ok (XRController.onEndSession exActive2)
    ∧ (XRController.onEndSession exActive2).device = exActive2.device :=
  ⟨(C3_teardown_clears_session_state exActive2).2.2.2.2.2.2.2 exSession rfl,
   (C3_teardown_clears_session_state exActive2).2.2.2.2.1⟩

/-- C4 counterexample: a per-frame invocation whose pose fails to resolve
leaves the pool untouched, so after a frame in which the device reported two
views the pool length is still 1 < 2 — the invariant as stated (pool length
always at least the view count reported for the current frame, over EVERY
invocation) does not hold on the pose-failure path. -/
theorem C4_pool_invariant_cex :
    (XRController.onXRFrame 0 exFrameNoPose2 exActive1).2 = Except.ok exActive1
    ∧ exActive1.renderViews.length = 1
    ∧ exFrameNoPose2.views.length = 2 :=
  ⟨rfl, rfl, rfl⟩

/-- C4 (amended): for every per-frame invocation in which the pose resolves,
the resulting pool length equals max(previous length, N) and is in particular
≥ N and ≥ the previous length (the pool only grows), and every slot that
existed before keeps its allocation identity — existing entries are
overwritten in place rather than replaced by new allocations. On pose-failure
invocations the pool is untouched and may stay shorter than the reported view
count. -/
theorem C4_pool_invariant_posed (time : Int) (frame : XRFrame) (s : XRController)
    (sess : XRSession) (pose : XRDevicePose) (g : Nat)
    (hs : s.session = some sess) (hgl : s.gl = some g)
    (hp : frame.getDevicePose s.frameOfRef = some pose) :
    ∃ st : XRController,
      (XRController.onXRFrame time frame s).2 = Except.ok st
      ∧ st.renderViews.length = max s.renderViews.length frame.views.length
      ∧ frame.views.length ≤ st.renderViews.length
      ∧ s.renderViews.length ≤ st.renderViews.length
      ∧ ∀ j, j < s.renderViews.length →
          (st.renderViews[j]?).map RenderView.id
            = (s.renderViews[j]?).map RenderView.id := by
  refine ⟨{ s with
      renderViews := (XRController.poolLoop pose sess.baseLayer frame.views 0
        s.renderViews s.freshCounter).1,
      freshCounter := (XRController.poolLoop pose sess.baseLayer frame.views 0
        s.renderViews s.freshCounter).2 }, ?_, ?_, ?_, ?_, ?_⟩
  · simp only [XRController.onXRFrame, hs, hgl, hp]
  · have h := poolLoop_length pose sess.baseLayer frame.views 0 s.renderViews
      s.freshCounter (Nat.zero_le _)
    simpa using h
  · have h := poolLoop_length pose sess.baseLayer frame.views 0 s.renderViews
      s.freshCounter (Nat.zero_le _)
    simp only [Nat.zero_add] at h
    simp only [h]
    omega
  · exact poolLoop_length_ge pose sess.baseLayer frame.views 0 s.renderViews
      s.freshCounter
  · intro j hj
    exact poolLoop_id_preserved pose sess.baseLayer frame.views 0 s.renderViews
      s.freshCounter j hj

/-- C4 witness: on the concrete one-slot pool and a posed two-view frame, the
resulting state has a pool of length two and slot 0 kept its allocation
identity. -/
theorem C4_pool_invariant_posed_witness :
    ((XRController.onXRFrame 0 exFrame2 exActive1).2.map
        fun st => st.renderViews.length) = Except.ok 2
    ∧ ((XRController.onXRFrame 0 exFrame2 exActive1).2.map
        fun st => (st.renderViews[0]?).map RenderView.id) = Except.ok (some 0) := by
  obtain ⟨st, h1, h2, h3, h4, h5⟩ :=
    C4_pool_invariant_posed 0 exFrame2 exActive1 exSession exPose 3 rfl rfl rfl
  rw [h1]
  constructor
  · simp only [Except.map]
    rw [h2]
    rfl
  · simp only [Except.map]
    rw [h5 0 (by decide)]
    rfl

/-- C5: a per-frame invocation whose pose fails to resolve re-registers the
callback, warns, leaves the controller state exactly unchanged, and never
invokes the Renderer Sink; the result is a normal return (no thrown error), so
the next scheduled frame retries independently. -/
theorem C5_pose_failure_skips (time : Int) (frame : XRFrame) (s : XRController)
    (sess : XRSession)
    (hs : s.session = some sess)
    (hp : frame.getDevicePose s.frameOfRef = none) :
    XRController.onXRFrame time frame s =
      ([FrameEvent.requestAnimationFrame,
        FrameEvent.warn "no pose - this is not handled yet."], Except.ok s)
    ∧ ∀ e vs, FrameEvent.rendererFrame e vs ∉ (XRController.onXRFrame time frame s).1 := by
  have h : XRController.onXRFrame time frame s =
      ([FrameEvent.requestAnimationFrame,
        FrameEvent.warn "no pose - this is not handled yet."], Except.ok s) := by
    simp only [XRController.onXRFrame, hs, hp]
  refine ⟨h, fun e vs hmem => ?_⟩
  rw [h] at hmem
  simp at hmem

/-- C5 witness: concrete pose-failure frame on the active controller: the
trace is re-registration plus warning and the state is returned unchanged. -/
theorem C5_pose_failure_skips_witness :
    XRController.onXRFrame 9 exFrameNoPose2 exActive1 =
      ([FrameEvent.requestAnimationFrame,
        FrameEvent.warn "no pose - this is not handled yet."], Except.ok exActive1) :=
  (C5_pose_failure_skips 9 exFrameNoPose2 exActive1 exSession rfl rfl).1

/-- C6: for every per-frame invocation on a controller with an active session,
the first recorded action is the re-registration of the next frame callback —
before the pose query result matters, before any render-view write and before
any sink submission — in particular also on frames that produce no output. -/
theorem C6_reregistration_first (time : Int) (frame : XRFrame) (s : XRController)
    (sess : XRSession) (hs : s.session = some sess) :
    (XRController.onXRFrame time frame s).1.head? = some FrameEvent.requestAnimationFrame := by
  rcases hp : frame.getDevicePose s.frameOfRef with _ | pose <;>
    rcases hgl : s.gl with _ | g <;>
      simp only [XRController.onXRFrame, hs, hp, hgl, List.head?]

/-- C6 witness: on a concrete pose-failure frame (which produces no output)
the first trace entry is the re-registration. -/
theorem C6_reregistration_first_witness :
    (XRController.onXRFrame 3 exFrameNoPose2 exActive1).1.head?
      = some FrameEvent.requestAnimationFrame :=
  C6_reregistration_first 3 exFrameNoPose2 exActive1 exSession rfl

/-- C7: on an initialized controller (device present), supportsSession never
propagates the device rejection: a resolving device query yields ok true and
a rejecting one is caught and yields ok false. -/
theorem C7_supportsSession_no_throw (s : XRController) (d : XRDevice)
    (hd : s.device = some d) :
    (∀ u, d.supportsSession s.sessionCreationOptions = Except.ok u →
        XRController.supportsSession s = Except.ok true)
    ∧ (∀ msg, d.supportsSession s.sessionCreationOptions = Except.error msg →
        XRController.supportsSession s = Except.ok false) := by
  constructor
  · intro u hu
    simp only [XRController.supportsSession, hd, hu]
  · intro msg hmsg
    simp only [XRController.supportsSession, hd, hmsg]

/-- C7 witness: an initialized controller holding a device that rejects the
immersive configuration gets ok false from supportsSession, not an
exception. -/
theorem C7_supportsSession_no_throw_witness :
    XRController.supportsSession exInitCtrl = Except.ok false :=
  (C7_supportsSession_no_throw exInitCtrl exRejectDevice rfl).2 "NotSupportedError" rfl

/-- C8: the blocked getter always reflects the most recent of block/unblock:
it is true right after block, false right after unblock (in particular after
block then unblock, from any state), and false on a freshly constructed
controller. -/
theorem C8_block_flag (s : XRController) (opts : Option XRSessionCreationOptions) :
    XRController.blocked (XRController.unblock (XRController.block s)) = false
    ∧ XRController.blocked (XRController.block s) = true
    ∧ XRController.blocked (XRController.unblock s) = false
    ∧ XRController.blocked (XRController.init opts) = false :=
  ⟨rfl, rfl, rfl, rfl⟩

/-- C9: for every successfully-posed per-frame invocation the Renderer Sink is
invoked, and every sink invocation in the trace carries the constant elapsed
time 0, whatever time value the callback received. -/
theorem C9_elapsed_time_zero (time : Int) (frame : XRFrame) (s : XRController)
    (sess : XRSession) (pose : XRDevicePose) (g : Nat)
    (hs : s.session = some sess) (hgl : s.gl = some g)
    (hp : frame.getDevicePose s.frameOfRef = some pose) :
    FrameEvent.rendererFrame 0
        (XRController.poolLoop pose sess.baseLayer frame.views 0
          s.renderViews s.freshCounter).1 ∈ (XRController.onXRFrame time frame s).1
    ∧ ∀ e vs, FrameEvent.rendererFrame e vs ∈ (XRController.onXRFrame time frame s).1
        → e = 0 := by
  have htr : (XRController.onXRFrame time frame s).1 =
      [FrameEvent.requestAnimationFrame,
       FrameEvent.bindFramebuffer sess.baseLayer.framebuffer,
       FrameEvent.rendererFrame 0
         (XRController.poolLoop pose sess.baseLayer frame.views 0
           s.renderViews s.freshCounter).1] := by
    simp only [XRController.onXRFrame, hs, hgl, hp]
  constructor
  · rw [htr]
    simp
  · intro e vs hmem
    rw [htr] at hmem
    simp at hmem
    exact hmem.1

/-- C9 witness: a posed two-view frame delivered with callback time 12345
still reaches the sink with elapsed time 0. -/
theorem C9_elapsed_time_zero_witness :
    FrameEvent.rendererFrame 0
        [⟨0, 1, 101, ⟨0, 0, 100, 100⟩⟩, ⟨1, 2, 102, ⟨0, 0, 100, 100⟩⟩]
      ∈ (XRController.onXRFrame 12345 exFrame2 exActive1).1 :=
  (C9_elapsed_time_zero 12345 exFrame2 exActive1 exSession exPose 3 rfl rfl rfl).1

/-- C10: the per-frame algorithm is independent of the _block flag: two
invocations on states that differ only in _block produce identical event
traces (same re-registration, same framebuffer bind, same sink submission or
skip with the same Render Views), and their resulting states agree on every
field once the untouched _block flag is set to the same value — so block and
unblock never suppress frame submission. -/
theorem C10_block_noninterference (time : Int) (frame : XRFrame) (s : XRController)
    (b₁ b₂ : Bool) :
    (XRController.onXRFrame time frame { s with _block := b₁ }).1
      = (XRController.onXRFrame time frame { s with _block := b₂ }).1
    ∧ ((XRController.onXRFrame time frame { s with _block := b₁ }).2.map
        fun st => { st with _block := b₂ })
      = (XRController.onXRFrame time frame { s with _block := b₂ }).2 := by
  rcases s with ⟨rv, opts, ca, wli, frt, fro, dev, sess, cv, g, fof, blk, fc⟩
  rcases sess with _ | sess
  · exact ⟨rfl, rfl⟩
  · rcases hp : frame.getDevicePose fof with _ | pose
    · refine ⟨?_, ?_⟩ <;> simp only [XRController.onXRFrame, hp] <;> rfl
    · rcases g with _ | g
      · refine ⟨?_, ?_⟩ <;> simp only [XRController.onXRFrame, hp] <;> rfl
      · refine ⟨?_, ?_⟩ <;> simp only [XRController.onXRFrame, hp] <;> rfl
